import Mathlib

/-!
Verification of the Ouroboros control-plane core against its specification.

The definitions below are a shallow embedding of the Python sources:
`app/core/state_machines.py`, `app/core/events/bus.py`,
`app/core/control_rfc9457_middleware.py`, `app/core/control_exceptions.py`,
`app/core/tasks/resource_tasks.py`, and the Control API endpoint modules
`app/api/v1/endpoints/control/{campaigns,attacks}.py`.  Python dicts become
association lists looked up with `dget`, exceptions become `Except`, and
awaited I/O (database rows, object storage) becomes explicit oracle inputs.
Service-layer functions that are not part of the sources are modelled from the
specification and are marked as such in their doc comments.
-/

/-- Lookup in an association list, mirroring Python `dict.get(key)`
(insertion-ordered, unique keys). -/
def dget {α β : Type} [DecidableEq α] : List (α × β) → α → Option β
  | [], _ => none
  | p :: rest, a => if a = p.1 then some p.2 else dget rest a

/-- A value produced by `dget` is one of the association list's values. -/
theorem dget_mem_snd {α β : Type} [DecidableEq α] {l : List (α × β)} {a : α} {b : β}
    (h : dget l a = some b) : b ∈ l.map Prod.snd := by
  induction l with
  | nil => simp [dget] at h
  | cons p rest ih =>
    simp only [dget] at h
    by_cases hc : a = p.1
    · simp [hc] at h
      simp [h]
    · simp [hc] at h
      simp [ih h]

/-- `CampaignState` from `app/models/campaign.py` (values observed throughout
the sources and tests: draft, active, paused, completed, archived, error). -/
inductive CampaignState where
  | DRAFT
  | ACTIVE
  | PAUSED
  | COMPLETED
  | ARCHIVED
  | ERROR
deriving DecidableEq, Repr, Fintype

/-- The string value of a campaign state (Python enum `.value`). -/
def CampaignState.value : CampaignState → String
  | .DRAFT => "draft"
  | .ACTIVE => "active"
  | .PAUSED => "paused"
  | .COMPLETED => "completed"
  | .ARCHIVED => "archived"
  | .ERROR => "error"

/-- `AttackState` from `app/models/attack.py` (PAUSED added by the migration
`add_paused_state_to_attackstate_enum`). -/
inductive AttackState where
  | PENDING
  | RUNNING
  | PAUSED
  | COMPLETED
  | FAILED
  | ABANDONED
deriving DecidableEq, Repr, Fintype

/-- The string value of an attack state (Python enum `.value`). -/
def AttackState.value : AttackState → String
  | .PENDING => "pending"
  | .RUNNING => "running"
  | .PAUSED => "paused"
  | .COMPLETED => "completed"
  | .FAILED => "failed"
  | .ABANDONED => "abandoned"

/-- Data carried by `app.core.state_machines.InvalidStateTransitionError`:
`from_state`, `to_state`, optional `action`, and the generated `message`. -/
structure StateMachineTransitionError (σ : Type) where
  from_state : σ
  to_state : σ
  action : Option String
  message : String
deriving DecidableEq, Repr

/-- Constructor mirroring `InvalidStateTransitionError.__init__` in
`state_machines.py`: the message depends on whether `action` is truthy
(present and non-empty). -/
def mkStateMachineTransitionError {σ : Type} (value : σ → String) (f t : σ)
    (action : Option String) : StateMachineTransitionError σ :=
  let fv := value f
  let tv := value t
  { from_state := f
    to_state := t
    action := action
    message :=
      match action with
      | some act =>
        if act.isEmpty then
          s!"Invalid state transition from \x27{fv}\x27 to \x27{tv}\x27"
        else
          s!"Cannot perform action \x27{act}\x27: transition from \x27{fv}\x27 to \x27{tv}\x27 is not allowed"
      | none => s!"Invalid state transition from \x27{fv}\x27 to \x27{tv}\x27" }

namespace CampaignStateMachine

/-- `CampaignStateMachine.TRANSITIONS` from `state_machines.py`. -/
def TRANSITIONS : List (CampaignState × List CampaignState) :=
  [(.DRAFT, [.ACTIVE, .ARCHIVED]),
   (.ACTIVE, [.PAUSED, .DRAFT, .ARCHIVED, .COMPLETED]),
   (.PAUSED, [.ACTIVE, .ARCHIVED]),
   (.COMPLETED, [.ARCHIVED]),
   (.ARCHIVED, [.DRAFT]),
   (.ERROR, [.DRAFT])]

/-- `CampaignStateMachine.ACTIONS` from `state_machines.py`. -/
def ACTIONS : List (String × List (CampaignState × CampaignState)) :=
  [("start", [(.DRAFT, .ACTIVE)]),
   ("stop", [(.ACTIVE, .DRAFT)]),
   ("pause", [(.ACTIVE, .PAUSED)]),
   ("resume", [(.PAUSED, .ACTIVE)]),
   ("archive", [(.DRAFT, .ARCHIVED), (.ACTIVE, .ARCHIVED), (.PAUSED, .ARCHIVED),
                (.COMPLETED, .ARCHIVED)]),
   ("unarchive", [(.ARCHIVED, .DRAFT)]),
   ("reset", [(.ERROR, .DRAFT)])]

/-- `CampaignStateMachine.can_transition`. -/
def can_transition (from_state to_state : CampaignState) : Bool :=
  ((dget TRANSITIONS from_state).getD []).contains to_state

/-- `CampaignStateMachine.validate_transition`. -/
def validate_transition (from_state to_state : CampaignState) (action : Option String) :
    Except (StateMachineTransitionError CampaignState) Unit :=
  if can_transition from_state to_state then .ok ()
  else .error (mkStateMachineTransitionError CampaignState.value from_state to_state action)

/-- `CampaignStateMachine.validate_action`. -/
def validate_action (current_state : CampaignState) (action : String) :
    Except (StateMachineTransitionError CampaignState) CampaignState :=
  match dget ACTIONS action with
  | none =>
    .error (mkStateMachineTransitionError CampaignState.value current_state current_state
      (some action))
  | some action_map =>
    match dget action_map current_state with
    | none =>
      let valid_targets := action_map.map Prod.snd
      let target_for_error := valid_targets.headD current_state
      .error (mkStateMachineTransitionError CampaignState.value current_state target_for_error
        (some action))
    | some target_state => .ok target_state

/-- `CampaignStateMachine.get_valid_transitions`. -/
def get_valid_transitions (from_state : CampaignState) : List CampaignState :=
  (dget TRANSITIONS from_state).getD []

end CampaignStateMachine

namespace AttackStateMachine

/-- `AttackStateMachine.TRANSITIONS` from `state_machines.py`. -/
def TRANSITIONS : List (AttackState × List AttackState) :=
  [(.PENDING, [.RUNNING, .ABANDONED]),
   (.RUNNING, [.PAUSED, .COMPLETED, .FAILED, .ABANDONED]),
   (.PAUSED, [.RUNNING, .ABANDONED]),
   (.COMPLETED, []),
   (.FAILED, [.PENDING]),
   (.ABANDONED, [.PENDING])]

/-- `AttackStateMachine.ACTIONS` from `state_machines.py`. -/
def ACTIONS : List (String × List (AttackState × AttackState)) :=
  [("start", [(.PENDING, .RUNNING)]),
   ("pause", [(.RUNNING, .PAUSED)]),
   ("resume", [(.PAUSED, .RUNNING)]),
   ("retry", [(.FAILED, .PENDING)]),
   ("abandon", [(.PENDING, .ABANDONED)]),
   ("abort", [(.RUNNING, .ABANDONED), (.PAUSED, .ABANDONED)]),
   ("reactivate", [(.ABANDONED, .PENDING)])]

/-- `AttackStateMachine.can_transition`. -/
def can_transition (from_state to_state : AttackState) : Bool :=
  ((dget TRANSITIONS from_state).getD []).contains to_state

/-- `AttackStateMachine.validate_transition`. -/
def validate_transition (from_state to_state : AttackState) (action : Option String) :
    Except (StateMachineTransitionError AttackState) Unit :=
  if can_transition from_state to_state then .ok ()
  else .error (mkStateMachineTransitionError AttackState.value from_state to_state action)

/-- `AttackStateMachine.validate_action`. -/
def validate_action (current_state : AttackState) (action : String) :
    Except (StateMachineTransitionError AttackState) AttackState :=
  match dget ACTIONS action with
  | none =>
    .error (mkStateMachineTransitionError AttackState.value current_state current_state
      (some action))
  | some action_map =>
    match dget action_map current_state with
    | none =>
      let valid_targets := action_map.map Prod.snd
      let target_for_error := valid_targets.headD current_state
      .error (mkStateMachineTransitionError AttackState.value current_state target_for_error
        (some action))
    | some target_state => .ok target_state

/-- `AttackStateMachine.get_valid_transitions`. -/
def get_valid_transitions (from_state : AttackState) : List AttackState :=
  (dget TRANSITIONS from_state).getD []

/-- `AttackStateMachine.is_terminal_state`. -/
def is_terminal_state (state : AttackState) : Bool :=
  ((dget TRANSITIONS state).getD []).length == 0

end AttackStateMachine

/-- C1: for every campaign state `s` and action `a` defined for `s` in the
campaign `ACTIONS` table, `validate_action s a` returns `ACTIONS[a][s]` without
raising, and that target belongs to `TRANSITIONS[s]`; the same consistency
holds for the attack state machine. -/
theorem validate_action_consistent_with_transitions :
    (∀ (s : CampaignState) (a : String) (m : List (CampaignState × CampaignState))
        (t : CampaignState),
        dget CampaignStateMachine.ACTIONS a = some m → dget m s = some t →
        CampaignStateMachine.validate_action s a = .ok t ∧
          t ∈ CampaignStateMachine.get_valid_transitions s) ∧
    (∀ (s : AttackState) (a : String) (m : List (AttackState × AttackState))
        (t : AttackState),
        dget AttackStateMachine.ACTIONS a = some m → dget m s = some t →
        AttackStateMachine.validate_action s a = .ok t ∧
          t ∈ AttackStateMachine.get_valid_transitions s) := by
  constructor
  · intro s a m t hm ht
    refine ⟨by simp [CampaignStateMachine.validate_action, hm, ht], ?_⟩
    have hmem : m ∈ CampaignStateMachine.ACTIONS.map Prod.snd := dget_mem_snd hm
    have hsound : ∀ m ∈ CampaignStateMachine.ACTIONS.map Prod.snd,
        ∀ (s t : CampaignState), dget m s = some t →
          t ∈ CampaignStateMachine.get_valid_transitions s := by decide
    exact hsound m hmem s t ht
  · intro s a m t hm ht
    refine ⟨by simp [AttackStateMachine.validate_action, hm, ht], ?_⟩
    have hmem : m ∈ AttackStateMachine.ACTIONS.map Prod.snd := dget_mem_snd hm
    have hsound : ∀ m ∈ AttackStateMachine.ACTIONS.map Prod.snd,
        ∀ (s t : AttackState), dget m s = some t →
          t ∈ AttackStateMachine.get_valid_transitions s := by decide
    exact hsound m hmem s t ht

/-- Witness for C1 at the concrete action `start` from `DRAFT`. -/
theorem validate_action_consistent_with_transitions_witness :
    CampaignStateMachine.validate_action .DRAFT "start" = .ok .ACTIVE ∧
      CampaignState.ACTIVE ∈ CampaignStateMachine.get_valid_transitions .DRAFT :=
  validate_action_consistent_with_transitions.1 .DRAFT "start" [(.DRAFT, .ACTIVE)] .ACTIVE
    (by decide) (by decide)

/-- C10: for any action name absent from a machine's `ACTIONS` table,
`validate_action` fails with an `InvalidStateTransitionError` whose
`from_state` and `to_state` both equal the current state and whose `action`
equals the attempted name; it neither raises a `KeyError` nor returns a
state. -/
theorem validate_action_unknown_action :
    (∀ (s : CampaignState) (a : String), dget CampaignStateMachine.ACTIONS a = none →
      ∃ e, CampaignStateMachine.validate_action s a = .error e ∧
        e.from_state = s ∧ e.to_state = s ∧ e.action = some a) ∧
    (∀ (s : AttackState) (a : String), dget AttackStateMachine.ACTIONS a = none →
      ∃ e, AttackStateMachine.validate_action s a = .error e ∧
        e.from_state = s ∧ e.to_state = s ∧ e.action = some a) := by
  constructor
  · intro s a h
    refine ⟨mkStateMachineTransitionError CampaignState.value s s (some a), ?_, ?_, ?_, ?_⟩ <;>
      simp [CampaignStateMachine.validate_action, mkStateMachineTransitionError, h]
  · intro s a h
    refine ⟨mkStateMachineTransitionError AttackState.value s s (some a), ?_, ?_, ?_, ?_⟩ <;>
      simp [AttackStateMachine.validate_action, mkStateMachineTransitionError, h]

/-- Witness for C10 at the concrete unknown action name `frobnicate`. -/
theorem validate_action_unknown_action_witness :
    ∃ e, CampaignStateMachine.validate_action .PAUSED "frobnicate" = .error e ∧
      e.from_state = .PAUSED ∧ e.to_state = .PAUSED ∧ e.action = some "frobnicate" :=
  validate_action_unknown_action.1 .PAUSED "frobnicate" (by decide)

/-- `HandlerFailure` from `app/core/events/bus.py`: the handler's `__name__`,
the raised exception (modelled by its message) and the event type. -/
structure HandlerFailure where
  handler_name : String
  exception : String
  event_type : String
deriving DecidableEq, Repr

/-- An event handler: its `__name__` and its behaviour on a payload dict,
`.ok ()` when the awaited call returns and `.error e` when it raises. -/
structure EventHandler where
  name : String
  run : List (String × String) → Except String Unit

/-- `EventBus` from `bus.py`: the `_handlers` registry, a `defaultdict(list)`
mapping event types to handler lists. -/
structure EventBus where
  handlers : String → List EventHandler

/-- `EventBus.subscribe`: append the handler to the event type's list. -/
def EventBus.subscribe (b : EventBus) (event_type : String) (h : EventHandler) : EventBus :=
  { handlers := fun t => if t = event_type then b.handlers t ++ [h] else b.handlers t }

/-- The `for handler in handlers` loop of `EventBus.publish`.  The first
component is the invocation trace (handler names in the order they were
awaited); the second is the accumulated failure list. -/
def publishLoop (event_type : String) (payload : List (String × String)) :
    List EventHandler → List String × List HandlerFailure
  | [] => ([], [])
  | h :: rest =>
    let tail := publishLoop event_type payload rest
    match h.run payload with
    | .ok _ => (h.name :: tail.1, tail.2)
    | .error e => (h.name :: tail.1, ⟨h.name, e, event_type⟩ :: tail.2)

/-- `EventBus.publish`: resolve the topic's handlers, return `[]` immediately
when there are none, otherwise run the loop.  The result pairs the invocation
trace with the returned failure list. -/
def EventBus.publish (b : EventBus) (event_type : String)
    (payload : List (String × String)) : List String × List HandlerFailure :=
  let handlers := b.handlers event_type
  if handlers.isEmpty then ([], [])
  else publishLoop event_type payload handlers

/-- The invocation trace of the publish loop is exactly the handler names in
list order. -/
theorem publishLoop_fst (event_type : String) (payload : List (String × String)) :
    ∀ l : List EventHandler,
      (publishLoop event_type payload l).1 = l.map EventHandler.name := by
  intro l
  induction l with
  | nil => rfl
  | cons h rest ih =>
    simp only [publishLoop, List.map]
    cases h.run payload <;> simp [ih]

/-- The failure list of the publish loop collects exactly the handlers that
raised, in order, with their name, exception, and the event type. -/
theorem publishLoop_snd (event_type : String) (payload : List (String × String)) :
    ∀ l : List EventHandler,
      (publishLoop event_type payload l).2 = l.filterMap (fun h =>
        match h.run payload with
        | .ok _ => none
        | .error e => some ⟨h.name, e, event_type⟩) := by
  intro l
  induction l with
  | nil => rfl
  | cons h rest ih =>
    simp only [publishLoop, List.filterMap]
    cases hr : h.run payload <;> simp [hr, ih]

/-- C3: `publish` awaits every subscribed handler sequentially in subscription
order with the payload (a raising handler does not stop later ones), the
returned list contains exactly the handlers that raised, recorded as
`HandlerFailure{handler_name, exception, event_type}`, publishing a topic with
no handlers returns `[]`, and `subscribe` appends so the handler list is in
subscription order. -/
theorem publish_sequential_and_failure_isolation :
    ∀ (b : EventBus) (event_type : String) (payload : List (String × String)),
      (b.publish event_type payload).1 = (b.handlers event_type).map EventHandler.name ∧
      (b.publish event_type payload).2 = (b.handlers event_type).filterMap (fun h =>
        match h.run payload with
        | .ok _ => none
        | .error e => some ⟨h.name, e, event_type⟩) ∧
      (b.handlers event_type = [] → b.publish event_type payload = ([], [])) ∧
      (∀ h : EventHandler,
        (b.subscribe event_type h).handlers event_type = b.handlers event_type ++ [h]) := by
  intro b event_type payload
  refine ⟨?_, ?_, ?_, ?_⟩
  · by_cases he : (b.handlers event_type).isEmpty
    · rw [List.isEmpty_iff] at he
      simp [EventBus.publish, he]
    · simp only [EventBus.publish, he, if_false, Bool.false_eq_true]
      exact publishLoop_fst event_type payload _
  · by_cases he : (b.handlers event_type).isEmpty
    · rw [List.isEmpty_iff] at he
      simp [EventBus.publish, he]
    · simp only [EventBus.publish, he, if_false, Bool.false_eq_true]
      exact publishLoop_snd event_type payload _
  · intro he
    simp [EventBus.publish, he]
  · intro h
    simp [EventBus.subscribe]

/-- Witness for C3: publishing a topic with no handlers is a no-op returning
the empty failure list. -/
theorem publish_sequential_and_failure_isolation_witness :
    EventBus.publish ⟨fun _ => []⟩ "campaign.created" [] = ([], []) :=
  (publish_sequential_and_failure_isolation ⟨fun _ => []⟩ "campaign.created" []).2.2.1 rfl

/-- The fields of `AttackResourceFile` relevant to the background tasks. -/
structure ResourceRow where
  is_uploaded : Bool
deriving DecidableEq, Repr

/-- `verify_upload_and_cleanup` from `app/core/tasks/resource_tasks.py`,
after the sleep.  Oracle inputs model the awaited I/O: `row` is the re-read
database row (`none` when already deleted), `bucket` the result of
`bucket_exists` (`.error` when the call raises), and `stat` the result of
`stat_object` (`.error` when it raises `S3Error`/`OSError`, `.ok (some _)`
when an object is returned, `.ok none` for the defensive null branch).
Returns `true` exactly when the task deletes the resource row. -/
def verify_upload_and_cleanup (row : Option ResourceRow)
    (bucket : Except String Bool) (stat : Except String (Option Unit)) : Bool :=
  match row with
  | none => false
  | some resource_obj =>
    if resource_obj.is_uploaded then false
    else
      match bucket with
      | .error _ => false
      | .ok false => false
      | .ok true =>
        match stat with
        | .ok (some _) => false
        | .error _ => false
        | .ok none => true

/-- C6: the per-upload verification task never deletes the resource row when
the row is gone or already uploaded at wake time, when the object exists in
storage, or when the storage existence check raises; it deletes only when none
of these hold (row present and not uploaded, bucket check succeeded, and the
existence check returned no object without raising). -/
theorem verify_upload_conservative :
    ∀ (row : Option ResourceRow) (bucket : Except String Bool)
      (stat : Except String (Option Unit)),
      (row = none → verify_upload_and_cleanup row bucket stat = false) ∧
      (∀ r, row = some r → r.is_uploaded = true →
        verify_upload_and_cleanup row bucket stat = false) ∧
      (∀ o, stat = .ok (some o) → verify_upload_and_cleanup row bucket stat = false) ∧
      (∀ e, stat = .error e → verify_upload_and_cleanup row bucket stat = false) ∧
      (verify_upload_and_cleanup row bucket stat = true →
        row = some ⟨false⟩ ∧ bucket = .ok true ∧ stat = .ok none) := by
  intro row bucket stat
  rcases row with _ | ⟨⟨u⟩⟩
  · simp [verify_upload_and_cleanup]
  · cases u
    · rcases bucket with be | bv
      · simp [verify_upload_and_cleanup]
      · cases bv
        · simp [verify_upload_and_cleanup]
        · rcases stat with se | o
          · simp [verify_upload_and_cleanup]
          · rcases o with _ | ⟨⟩ <;> simp [verify_upload_and_cleanup]
    · simp [verify_upload_and_cleanup]

/-- Witness for C6: an object present in storage blocks deletion. -/
theorem verify_upload_conservative_witness :
    verify_upload_and_cleanup (some ⟨false⟩) (.ok true) (.ok (some ())) = false :=
  (verify_upload_conservative (some ⟨false⟩) (.ok true) (.ok (some ()))).2.2.1 () rfl

/-- Per-row environment for one iteration of the cleanup loop in
`cleanup_stale_pending_resources`: the stale resource id, the row returned by
the `FOR UPDATE SKIP LOCKED` fetch (`none` when gone or locked elsewhere), and
the outcome of processing the row.  The processing outcome is the result of
`cleanup_stale_resource`, which lives in
`app/core/services/resource_service.py`.  Modelled from the spec: that
function attempts to delete the storage object and then the row, returning
success, failure, or raising a storage/database error, so it is an oracle
input here (`.ok true` success, `.ok false` failure, `.error` raised). -/
structure CleanupRowEnv where
  rid : Nat
  fetched : Option ResourceRow
  cleanupResult : Except String Bool
deriving Repr

/-- Observable actions of one cleanup iteration. -/
inductive CleanupEvent where
  | lockedFetch (rid : Nat)
  | commit
  | rollback
deriving DecidableEq, Repr

/-- Summary dict `{deleted, errors}` returned by the cleanup iteration. -/
structure CleanupSummary where
  deleted : Nat
  errors : Nat
deriving DecidableEq, Repr

/-- The `for resource_id in stale_resource_ids` loop of
`cleanup_stale_pending_resources` in `resource_tasks.py`: counters plus the
trace of locked fetches, commits and rollbacks, in program order. -/
def cleanupLoop : List CleanupRowEnv → Nat × Nat × List CleanupEvent
  | [] => (0, 0, [])
  | env :: rest =>
    let tail := cleanupLoop rest
    match env.fetched with
    | none => (tail.1, tail.2.1, .lockedFetch env.rid :: tail.2.2)
    | some resource =>
      if resource.is_uploaded then (tail.1, tail.2.1, .lockedFetch env.rid :: tail.2.2)
      else
        match env.cleanupResult with
        | .ok true => (tail.1 + 1, tail.2.1, .lockedFetch env.rid :: .commit :: tail.2.2)
        | .ok false => (tail.1, tail.2.1 + 1, .lockedFetch env.rid :: .rollback :: tail.2.2)
        | .error _ => (tail.1, tail.2.1 + 1, .lockedFetch env.rid :: .rollback :: tail.2.2)

/-- `cleanup_stale_pending_resources` over the selected stale ids: runs the
loop and returns the `{deleted, errors}` summary together with the trace. -/
def cleanup_stale_pending_resources (rows : List CleanupRowEnv) :
    CleanupSummary × List CleanupEvent :=
  let r := cleanupLoop rows
  (⟨r.1, r.2.1⟩, r.2.2)

/-- Specification-side view of one row's trace contribution. -/
def cleanupRowEvents (env : CleanupRowEnv) : List CleanupEvent :=
  match env.fetched with
  | none => [.lockedFetch env.rid]
  | some resource =>
    if resource.is_uploaded then [.lockedFetch env.rid]
    else
      match env.cleanupResult with
      | .ok true => [.lockedFetch env.rid, .commit]
      | .ok false => [.lockedFetch env.rid, .rollback]
      | .error _ => [.lockedFetch env.rid, .rollback]

/-- Specification-side view of one row's contribution to `deleted`. -/
def cleanupRowDeleted (env : CleanupRowEnv) : Nat :=
  match env.fetched with
  | none => 0
  | some resource =>
    if resource.is_uploaded then 0
    else
      match env.cleanupResult with
      | .ok true => 1
      | .ok false => 0
      | .error _ => 0

/-- Specification-side view of one row's contribution to `errors`. -/
def cleanupRowErrors (env : CleanupRowEnv) : Nat :=
  match env.fetched with
  | none => 0
  | some resource =>
    if resource.is_uploaded then 0
    else
      match env.cleanupResult with
      | .ok true => 0
      | .ok false => 1
      | .error _ => 1

/-- C7: each cleanup iteration issues the locked per-row fetch for every
selected stale id; a gone or already-uploaded row is skipped without commit or
rollback; a storage or database error for one row rolls back, increments the
error counter, and leaves the remaining rows processed (the trace is the
concatenation of all per-row traces); and the iteration returns the
`{deleted, errors}` summary accumulated over all rows. -/
theorem cleanup_stale_processes_each_row :
    ∀ rows : List CleanupRowEnv,
      (cleanup_stale_pending_resources rows).2 = rows.flatMap cleanupRowEvents ∧
      (cleanup_stale_pending_resources rows).1 =
        ⟨(rows.map cleanupRowDeleted).sum, (rows.map cleanupRowErrors).sum⟩ ∧
      (∀ env ∈ rows, CleanupEvent.lockedFetch env.rid ∈
        (cleanup_stale_pending_resources rows).2) ∧
      (∀ env : CleanupRowEnv,
        (env.fetched = none ∨ ∃ r, env.fetched = some r ∧ r.is_uploaded = true) →
        cleanupRowEvents env = [.lockedFetch env.rid] ∧
          cleanupRowDeleted env = 0 ∧ cleanupRowErrors env = 0) ∧
      (∀ (env : CleanupRowEnv) (r : ResourceRow) (err : String),
        env.fetched = some r → r.is_uploaded = false → env.cleanupResult = .error err →
        cleanupRowEvents env = [.lockedFetch env.rid, .rollback] ∧
          cleanupRowErrors env = 1) := by
  intro rows
  have hmain : ∀ l : List CleanupRowEnv,
      cleanupLoop l = ((l.map cleanupRowDeleted).sum, (l.map cleanupRowErrors).sum,
        l.flatMap cleanupRowEvents) := by
    intro l
    induction l with
    | nil => rfl
    | cons env rest ih =>
      simp only [cleanupLoop, ih, List.map, List.flatMap_cons, List.sum_cons]
      rcases env with ⟨rid, fetched, res⟩
      rcases fetched with _ | ⟨⟨u⟩⟩
      · simp [cleanupRowEvents, cleanupRowDeleted, cleanupRowErrors]
      · cases u
        · rcases res with e | b
          · simp [cleanupRowEvents, cleanupRowDeleted, cleanupRowErrors, Nat.add_comm]
          · cases b <;>
              simp [cleanupRowEvents, cleanupRowDeleted, cleanupRowErrors, Nat.add_comm]
        · simp [cleanupRowEvents, cleanupRowDeleted, cleanupRowErrors]
  refine ⟨?_, ?_, ?_, ?_, ?_⟩
  · simp [cleanup_stale_pending_resources, hmain rows]
  · simp [cleanup_stale_pending_resources, hmain rows]
  · intro env hin
    simp only [cleanup_stale_pending_resources, hmain rows, List.mem_flatMap]
    refine ⟨env, hin, ?_⟩
    rcases env with ⟨rid, fetched, res⟩
    rcases fetched with _ | ⟨⟨u⟩⟩
    · simp [cleanupRowEvents]
    · cases u
      · rcases res with e | b
        · simp [cleanupRowEvents]
        · cases b <;> simp [cleanupRowEvents]
      · rcases res with e | b
        · simp [cleanupRowEvents]
        · cases b <;> simp [cleanupRowEvents]
  · rintro env (hnone | ⟨r, hsome, hup⟩)
    · simp [cleanupRowEvents, cleanupRowDeleted, cleanupRowErrors, hnone]
    · simp [cleanupRowEvents, cleanupRowDeleted, cleanupRowErrors, hsome, hup]
  · intro env r err hsome hup herr
    simp [cleanupRowEvents, cleanupRowErrors, hsome, hup, herr]

/-- Witness for C7 on a concrete three-row batch: a skipped locked row, a
failing row, and a successfully deleted row. -/
theorem cleanup_stale_processes_each_row_witness :
    CleanupEvent.lockedFetch 2 ∈
      (cleanup_stale_pending_resources
        [⟨1, none, .ok true⟩, ⟨2, some ⟨false⟩, .error "s3 down"⟩,
         ⟨3, some ⟨false⟩, .ok true⟩]).2 :=
  (cleanup_stale_processes_each_row
      [⟨1, none, .ok true⟩, ⟨2, some ⟨false⟩, .error "s3 down"⟩,
       ⟨3, some ⟨false⟩, .ok true⟩]).2.2.1
    ⟨2, some ⟨false⟩, .error "s3 down"⟩ (by simp)

/-- Result of a Control API lifecycle endpoint: a JSON success carrying the
entity state, or an RFC 9457 problem with its HTTP status and title. -/
inductive LifecycleResult (σ : Type) where
  | ok (status : Nat) (state : σ)
  | problem (status : Nat) (title : String)
deriving DecidableEq, Repr

/-- Modelled from the spec: `start_campaign_service` lives in
`app/core/services/campaign_service.py`, which is not under `src/`.
Spec section 4.3 (idempotence policy) and the test suite
(`test_start_campaign_invalid_state`): the service treats "already in target
state" as success returning the current state; otherwise the campaign state
machine validates the `start` action and the campaign moves to its target. -/
def start_campaign_service (state : CampaignState) :
    Except (StateMachineTransitionError CampaignState) CampaignState :=
  if state = CampaignState.ACTIVE then .ok CampaignState.ACTIVE
  else CampaignStateMachine.validate_action state "start"

/-- Modelled from the spec: `start_attack_service` lives in
`app/core/services/attack_service.py`, which is not under `src/`.
Spec section 4.8: attack lifecycle is strict (`start: PENDING→RUNNING`, no
idempotence shortcut), so the service validates the `start` action against
the attack state machine. -/
def start_attack_service (state : AttackState) :
    Except (StateMachineTransitionError AttackState) AttackState :=
  AttackStateMachine.validate_action state "start"

/-- `start_campaign` endpoint from
`app/api/v1/endpoints/control/campaigns.py`: 404 when the campaign is
missing, 403 without project access, otherwise the service result with
`StateMachineTransitionError` converted to a 409 Invalid State Transition
problem. -/
def start_campaign (campaign : Option CampaignState) (hasAccess : Bool) :
    LifecycleResult CampaignState :=
  match campaign with
  | none => .problem 404 "Campaign Not Found"
  | some state =>
    if !hasAccess then .problem 403 "Project Access Denied"
    else
      match start_campaign_service state with
      | .ok s => .ok 200 s
      | .error _ => .problem 409 "Invalid State Transition"

/-- `start_attack` endpoint from `app/api/v1/endpoints/control/attacks.py`:
404 when the attack is missing, 403 without project access, otherwise the
service result with `InvalidStateTransitionError` converted to a 409 Invalid
State Transition problem. -/
def start_attack (attack : Option AttackState) (hasAccess : Bool) :
    LifecycleResult AttackState :=
  match attack with
  | none => .problem 404 "Attack Not Found"
  | some state =>
    if !hasAccess then .problem 403 "Project Access Denied"
    else
      match start_attack_service state with
      | .ok s => .ok 200 s
      | .error _ => .problem 409 "Invalid State Transition"

/-- C2: campaign lifecycle is idempotent while attack lifecycle is strict:
starting a campaign already in ACTIVE returns 200 with state ACTIVE, whereas
starting an attack already in RUNNING fails with a 409 Invalid State
Transition problem. -/
theorem lifecycle_idempotence_asymmetry :
    start_campaign (some .ACTIVE) true = .ok 200 .ACTIVE ∧
      start_attack (some .RUNNING) true = .problem 409 "Invalid State Transition" := by
  constructor <;> rfl

/-- States from which `delete_campaign` allows deletion
(`allowed_states` in `campaigns.py`). -/
def allowed_delete_states : List CampaignState :=
  [.DRAFT, .COMPLETED, .ARCHIVED, .ERROR]

/-- Result of the `DELETE /campaigns/{id}` endpoint: `noContent` is the 204
response (the campaign row was deleted); `problem` carries the RFC 9457
status and title of a failure (the campaign row is left untouched). -/
inductive DeleteCampaignResult where
  | noContent
  | problem (status : Nat) (title : String)
deriving DecidableEq, Repr

/-- `delete_campaign` endpoint from
`app/api/v1/endpoints/control/campaigns.py`: 404 when the campaign is
missing, 403 without project access, 400 Invalid Resource State unless the
campaign state is in `allowed_delete_states`, otherwise the service deletes
the row and the endpoint answers 204. -/
def delete_campaign (campaign : Option CampaignState) (hasAccess : Bool) :
    DeleteCampaignResult :=
  match campaign with
  | none => .problem 404 "Campaign Not Found"
  | some state =>
    if !hasAccess then .problem 403 "Project Access Denied"
    else if allowed_delete_states.contains state then .noContent
    else .problem 400 "Invalid Resource State"

/-- C9: deleting a campaign succeeds with 204 only when its state is one of
DRAFT, COMPLETED, ARCHIVED, ERROR; for any other state (in particular ACTIVE
and PAUSED) the request fails with 400 Invalid Resource State and the
campaign is not deleted. -/
theorem delete_campaign_state_gate :
    (∀ (campaign : Option CampaignState) (hasAccess : Bool),
      delete_campaign campaign hasAccess = .noContent →
        ∃ s, campaign = some s ∧ s ∈ allowed_delete_states) ∧
    (∀ s : CampaignState, s ∉ allowed_delete_states →
      delete_campaign (some s) true = .problem 400 "Invalid Resource State") ∧
    delete_campaign (some .ACTIVE) true = .problem 400 "Invalid Resource State" ∧
    delete_campaign (some .PAUSED) true = .problem 400 "Invalid Resource State" := by
  refine ⟨?_, ?_, rfl, rfl⟩ <;> decide

/-- Witness for C9: a COMPLETED campaign may be deleted, an ACTIVE one may
not. -/
theorem delete_campaign_state_gate_witness :
    (∃ s, (some CampaignState.COMPLETED : Option CampaignState) = some s ∧
      s ∈ allowed_delete_states) ∧
    delete_campaign (some .ACTIVE) true = .problem 400 "Invalid Resource State" :=
  ⟨delete_campaign_state_gate.1 (some .COMPLETED) true rfl,
   delete_campaign_state_gate.2.1 .ACTIVE (by decide)⟩

/-- Modelled from the spec: `estimate_attack_keyspace_and_complexity` lives in
`app/core/services/attack_service.py`, which is not under `src/`.  Spec
sections 4.8 and 8: a mask attack's keyspace is the product of the
per-position charset sizes; `?d` denotes the ten digits, and the remaining
built-in hashcat charsets have their standard sizes, a literal position
contributing one candidate. -/
def charsetSize : Char → Nat
  | 'l' => 26
  | 'u' => 26
  | 'd' => 10
  | 's' => 33
  | 'a' => 95
  | 'b' => 256
  | _ => 1

/-- The per-position charset sizes of a mask: a `?x` token contributes the
size of charset `x`, any other character is a literal position of size 1. -/
def maskCharsets : List Char → List Nat
  | [] => []
  | '?' :: c :: rest => charsetSize c :: maskCharsets rest
  | _ :: rest => 1 :: maskCharsets rest

/-- Modelled from the spec: the keyspace computation scans the mask once,
multiplying in each position's charset size. -/
def maskKeyspaceLoop : List Char → Nat
  | [] => 1
  | '?' :: c :: rest => charsetSize c * maskKeyspaceLoop rest
  | _ :: rest => 1 * maskKeyspaceLoop rest

/-- Modelled from the spec: the keyspace of `POST /attacks/estimate` for a
mask attack configuration. -/
def estimate_mask_keyspace (mask : String) : Nat :=
  maskKeyspaceLoop mask.toList

/-- C8: the estimated keyspace of a mask attack equals the product of the
per-position charset sizes, it is a non-negative integer, and the mask
`?d?d?d?d` yields 10000. -/
theorem estimate_mask_keyspace_is_charset_product :
    (∀ mask : String,
      estimate_mask_keyspace mask = ((maskCharsets mask.toList).prod)) ∧
    (∀ mask : String, 0 ≤ (estimate_mask_keyspace mask : Int)) ∧
    estimate_mask_keyspace "?d?d?d?d" = 10000 := by
  have hloop : ∀ l : List Char, maskKeyspaceLoop l = (maskCharsets l).prod := by
    intro l
    induction l using maskKeyspaceLoop.induct with
    | case1 => rfl
    | case2 c rest ih => simp [maskKeyspaceLoop, maskCharsets, ih]
    | case3 c rest h ih =>
      rw [maskKeyspaceLoop, maskCharsets]
      · simp [ih]
      · intro c2 r2 he
        exact h c2 r2 he
      · intro c2 r2 he
        exact h c2 r2 he
  refine ⟨fun mask => hloop mask.toList, fun mask => Int.natCast_nonneg _, ?_⟩
  decide

/-- Python `str.startswith`, modelled over character lists so that it
evaluates by reduction. -/
def strStartsWith (s p : String) : Bool :=
  p.toList.isPrefixOf s.toList

/-- A JSON value as used in problem-details bodies. -/
inductive JVal where
  | jnull
  | jstr (s : String)
  | jnat (n : Nat)
  | jstrList (l : List String)
deriving DecidableEq, Repr

/-- Optional string to JSON, `None` serializing as `null`. -/
def optJStr : Option String → JVal
  | none => .jnull
  | some s => .jstr s

/-- Optional string list to JSON, `None` serializing as `null`. -/
def optJList : Option (List String) → JVal
  | none => .jnull
  | some l => .jstrList l

/-- An HTTP response as produced by the middleware: status code, JSON body
(key-value pairs with unique keys), and content type. -/
structure HttpResponse where
  status : Nat
  body : List (String × JVal)
  content_type : String
deriving DecidableEq, Repr

/-- The typed core error kinds of `app/core/control_exceptions.py` other than
`InvalidStateTransitionError` (which carries extra structure). -/
inductive CoreErrorKind where
  | campaignNotFound
  | attackNotFound
  | agentNotFound
  | hashListNotFound
  | hashItemNotFound
  | resourceNotFound
  | userNotFound
  | userConflict
  | projectNotFound
  | taskNotFound
  | invalidAttackConfig
  | invalidHashFormat
  | invalidResourceFormat
  | insufficientPermissions
  | projectAccessDenied
  | internalServerError
  | invalidResourceState
deriving DecidableEq, Repr, Fintype

/-- HTTP status of each core error kind (from the `fastapi_problem` base
class each exception derives from). -/
def coreStatus : CoreErrorKind → Nat
  | .campaignNotFound => 404
  | .attackNotFound => 404
  | .agentNotFound => 404
  | .hashListNotFound => 404
  | .hashItemNotFound => 404
  | .resourceNotFound => 404
  | .userNotFound => 404
  | .userConflict => 409
  | .projectNotFound => 404
  | .taskNotFound => 404
  | .invalidAttackConfig => 400
  | .invalidHashFormat => 400
  | .invalidResourceFormat => 400
  | .insufficientPermissions => 403
  | .projectAccessDenied => 403
  | .internalServerError => 500
  | .invalidResourceState => 400

/-- `title` attribute of each core error class. -/
def coreTitle : CoreErrorKind → String
  | .campaignNotFound => "Campaign Not Found"
  | .attackNotFound => "Attack Not Found"
  | .agentNotFound => "Agent Not Found"
  | .hashListNotFound => "Hash List Not Found"
  | .hashItemNotFound => "Hash Item Not Found"
  | .resourceNotFound => "Resource Not Found"
  | .userNotFound => "User Not Found"
  | .userConflict => "User Already Exists"
  | .projectNotFound => "Project Not Found"
  | .taskNotFound => "Task Not Found"
  | .invalidAttackConfig => "Invalid Attack Configuration"
  | .invalidHashFormat => "Invalid Hash Format"
  | .invalidResourceFormat => "Invalid Resource Format"
  | .insufficientPermissions => "Insufficient Permissions"
  | .projectAccessDenied => "Project Access Denied"
  | .internalServerError => "Internal Server Error"
  | .invalidResourceState => "Invalid Resource State"

/-- Kebab-case `type` tag of each core error (derived from the title by the
`fastapi_problem` library). -/
def coreType (k : CoreErrorKind) : String :=
  ((coreTitle k).map (fun c => if c = ' ' then '-' else c.toLower))

/-- Attributes stored on an `InvalidStateTransitionProblem` instance by
`InvalidStateTransitionError.__init__` in `control_exceptions.py`. -/
structure TransitionProblemData where
  detail : String
  current_state : Option String
  attempted_state : Option String
  action : Option String
  entity_type : String
  valid_transitions : Option (List String)
deriving DecidableEq, Repr

/-- The `detail` of a framework `HTTPException`: a plain string or a dict. -/
inductive HttpExcDetail where
  | str (s : String)
  | dict (d : List (String × JVal))
deriving DecidableEq, Repr

/-- An exception escaping a Control API handler, as the middleware sees it:
an `InvalidStateTransitionProblem`, one of the other typed core errors with
its detail string, a framework `HTTPException`, or anything else. -/
inductive ControlException where
  | stateTransition (e : TransitionProblemData)
  | core (k : CoreErrorKind) (detail : String)
  | http (status : Nat) (detail : HttpExcDetail)
  | other
deriving DecidableEq, Repr

/-- The `except` tuple of `ControlRFC9457Middleware.dispatch`: the typed core
errors it converts.  `InvalidResourceStateError` is absent from the tuple in
`control_rfc9457_middleware.py`. -/
def caughtByMiddleware : CoreErrorKind → Bool
  | .campaignNotFound => true
  | .attackNotFound => true
  | .agentNotFound => true
  | .hashListNotFound => true
  | .hashItemNotFound => true
  | .resourceNotFound => true
  | .userNotFound => true
  | .userConflict => true
  | .projectNotFound => true
  | .taskNotFound => true
  | .invalidAttackConfig => true
  | .invalidHashFormat => true
  | .invalidResourceFormat => true
  | .insufficientPermissions => true
  | .internalServerError => true
  | .projectAccessDenied => true
  | .invalidResourceState => false

/-- `_STATUS_TITLES` from `control_rfc9457_middleware.py`. -/
def STATUS_TITLES : List (Nat × String) :=
  [(400, "Bad Request"), (401, "Unauthorized"), (403, "Forbidden"), (404, "Not Found"),
   (409, "Conflict"), (422, "Unprocessable Entity"), (500, "Internal Server Error")]

/-- The response the middleware builds for an
`InvalidStateTransitionProblem`: the five RFC 9457 fields plus the five
extension fields, which are always present because `__init__` always sets
the attributes (possibly to `None`). -/
def mkStateTransitionResponse (path : String) (e : TransitionProblemData) : HttpResponse :=
  { status := 409
    body := [("type", .jstr "invalid-state-transition"),
             ("title", .jstr "Invalid State Transition"),
             ("status", .jnat 409),
             ("detail", .jstr e.detail),
             ("instance", .jstr path),
             ("current_state", optJStr e.current_state),
             ("attempted_state", optJStr e.attempted_state),
             ("action", optJStr e.action),
             ("entity_type", .jstr e.entity_type),
             ("valid_transitions", optJList e.valid_transitions)]
    content_type := "application/problem+json" }

/-- The response the middleware builds for the other caught typed core
errors. -/
def mkCoreResponse (path : String) (k : CoreErrorKind) (detail : String) : HttpResponse :=
  { status := coreStatus k
    body := [("type", .jstr (coreType k)),
             ("title", .jstr (coreTitle k)),
             ("status", .jnat (coreStatus k)),
             ("detail", .jstr detail),
             ("instance", .jstr path)]
    content_type := "application/problem+json" }

/-- The response the middleware builds for a framework `HTTPException`: title
from `_STATUS_TITLES` (default "HTTP Error"); for a dict detail, the dict's
keys other than the reserved four are merged as extensions and `detail`
falls back to the title; for a string detail, an empty string falls back to
the title. -/
def mkHttpExcResponse (path : String) (status : Nat) (detail : HttpExcDetail) :
    HttpResponse :=
  let title := (dget STATUS_TITLES status).getD "HTTP Error"
  let base : List (String × JVal) :=
    [("type", .jstr "about:blank"), ("title", .jstr title), ("status", .jnat status),
     ("instance", .jstr path)]
  match detail with
  | .dict d =>
    let extensions := d.filter (fun kv =>
      kv.1 ≠ "type" ∧ kv.1 ≠ "title" ∧ kv.1 ≠ "status" ∧ kv.1 ≠ "instance" ∧
        kv.1 ≠ "detail")
    let detailVal := (dget d "detail").getD (.jstr title)
    { status := status
      body := base ++ extensions ++ [("detail", detailVal)]
      content_type := "application/problem+json" }
  | .str s =>
    { status := status
      body := base ++ [("detail", .jstr (if s.isEmpty then title else s))]
      content_type := "application/problem+json" }

/-- `ControlRFC9457Middleware.dispatch`: a pass-through for paths outside
`/api/v1/control/`; on such paths the handler outcome (response or raised
exception) is returned unchanged.  On Control API paths a raised
`InvalidStateTransitionProblem`, a raised member of the caught core-error
tuple, and a raised `HTTPException` become problem+json responses, and any
other exception is re-raised. -/
def middlewareDispatch (path : String)
    (result : Except ControlException HttpResponse) :
    Except ControlException HttpResponse :=
  if !(strStartsWith path "/api/v1/control/") then result
  else
    match result with
    | .ok r => .ok r
    | .error (.stateTransition e) => .ok (mkStateTransitionResponse path e)
    | .error (.core k detail) =>
      if caughtByMiddleware k then .ok (mkCoreResponse path k detail)
      else .error (.core k detail)
    | .error (.http status detail) => .ok (mkHttpExcResponse path status detail)
    | .error .other => .error .other

/-- C4 counterexample: `InvalidResourceStateError` is a typed core error of
the taxonomy (section 4.1, status 400), raised on a Control API path by
`delete_campaign` and others, yet the middleware does not return a response
for it: it is missing from the caught tuple and is re-raised unchanged. -/
theorem middleware_misses_invalid_resource_state :
    middlewareDispatch "/api/v1/control/campaigns/7"
        (.error (.core .invalidResourceState "Cannot delete campaign in active state")) =
      .error (.core .invalidResourceState "Cannot delete campaign in active state") ∧
    coreStatus .invalidResourceState = 400 := by
  constructor <;> rfl

/-- C4 (amended): for every Control API request raising a typed core error
among those the middleware catches (all of section 4.1 except
InvalidResourceState), the middleware returns a response whose HTTP status
equals the body's `status` field and whose body has the keys type, title,
status, detail, instance with `instance` the request path; for
InvalidStateTransition errors the body additionally has the five extension
fields even when null; for paths outside `/api/v1/control/` the middleware
is a pure pass-through. -/
theorem middleware_problem_details :
    (∀ (path : String) (e : TransitionProblemData),
      strStartsWith path "/api/v1/control/" = true →
      ∃ r, middlewareDispatch path (.error (.stateTransition e)) = .ok r ∧
        r.status = 409 ∧
        dget r.body "status" = some (.jnat r.status) ∧
        (dget r.body "type").isSome ∧ (dget r.body "title").isSome ∧
        (dget r.body "detail").isSome ∧
        dget r.body "instance" = some (.jstr path) ∧
        (dget r.body "current_state").isSome ∧ (dget r.body "attempted_state").isSome ∧
        (dget r.body "action").isSome ∧ (dget r.body "entity_type").isSome ∧
        (dget r.body "valid_transitions").isSome) ∧
    (∀ (path : String) (k : CoreErrorKind) (detail : String),
      strStartsWith path "/api/v1/control/" = true →
      caughtByMiddleware k = true →
      ∃ r, middlewareDispatch path (.error (.core k detail)) = .ok r ∧
        r.status = coreStatus k ∧
        dget r.body "status" = some (.jnat r.status) ∧
        (dget r.body "type").isSome ∧ (dget r.body "title").isSome ∧
        (dget r.body "detail").isSome ∧
        dget r.body "instance" = some (.jstr path)) ∧
    (∀ (path : String) (result : Except ControlException HttpResponse),
      strStartsWith path "/api/v1/control/" = false →
      middlewareDispatch path result = result) := by
  refine ⟨?_, ?_, ?_⟩
  · intro path e hp
    refine ⟨mkStateTransitionResponse path e, ?_, ?_⟩
    · simp [middlewareDispatch, hp]
    · refine ⟨rfl, ?_⟩
      simp [mkStateTransitionResponse, dget]
  · intro path k detail hp hc
    refine ⟨mkCoreResponse path k detail, ?_, ?_⟩
    · simp [middlewareDispatch, hp, hc]
    · refine ⟨rfl, ?_⟩
      simp [mkCoreResponse, dget]
  · intro path result hp
    simp [middlewareDispatch, hp]

/-- Witness for C4 (amended) at a concrete caught core error. -/
theorem middleware_problem_details_witness :
    (middlewareDispatch "/api/v1/control/campaigns/9"
      (.error (.core .campaignNotFound "Campaign with ID 9 not found"))).isOk = true := by
  obtain ⟨r, hr, -⟩ := middleware_problem_details.2.1 "/api/v1/control/campaigns/9"
    .campaignNotFound "Campaign with ID 9 not found" (by decide) rfl
  rw [hr]
  rfl

/-- The fields of `AttackResourceFile` read by `validate_attack_config`. -/
structure AttackResourceFileRow where
  file_name : String
  is_uploaded : Bool
deriving DecidableEq, Repr

/-- `ResourceAvailability` response schema from
`app/api/v1/endpoints/control/attacks.py`. -/
structure ResourceAvailability where
  resource_id : String
  status : String
  name : Option String
deriving DecidableEq, Repr

/-- `AttackValidationResponse` schema from the same module. -/
structure AttackValidationResponse where
  valid : Bool
  errors : List String
  warnings : List String
  resource_availability : List ResourceAvailability
deriving DecidableEq, Repr

/-- Outcome of `_validate_campaign_access` for a campaign id: success, or one
of the two exceptions it raises. -/
inductive CampaignAccess where
  | ok
  | notFound
  | denied
deriving DecidableEq, Repr

/-- The `AttackCreate` fields used by `validate_attack_config`, resource
references modelled as numeric ids. -/
structure AttackCreateData where
  campaign_id : Option Nat
  word_list_id : Option Nat
  rule_list_id : Option Nat
  mask_list_id : Option Nat
deriving DecidableEq, Repr

/-- The wordlist block of `validate_attack_config`: availability entries,
errors, warnings appended for `word_list_id`. -/
def checkWordList (db : Nat → Option AttackResourceFileRow) (rid : Nat) :
    List ResourceAvailability × List String × List String :=
  match db rid with
  | none => ([⟨toString rid, "not_found", none⟩], [s!"Wordlist {rid} not found"], [])
  | some resource =>
    if !resource.is_uploaded then
      ([⟨toString rid, "unavailable", some resource.file_name⟩], [],
       [s!"Wordlist \x27{resource.file_name}\x27 is not yet uploaded"])
    else
      ([⟨toString rid, "available", some resource.file_name⟩], [], [])

/-- The rule-list block of `validate_attack_config`. -/
def checkRuleList (db : Nat → Option AttackResourceFileRow) (rid : Nat) :
    List ResourceAvailability × List String × List String :=
  match db rid with
  | none => ([⟨toString rid, "not_found", none⟩], [s!"Rule list {rid} not found"], [])
  | some resource =>
    if !resource.is_uploaded then
      ([⟨toString rid, "unavailable", some resource.file_name⟩], [],
       [s!"Rule list \x27{resource.file_name}\x27 is not yet uploaded"])
    else
      ([⟨toString rid, "available", some resource.file_name⟩], [], [])

/-- The mask-list block of `validate_attack_config`. -/
def checkMaskList (db : Nat → Option AttackResourceFileRow) (rid : Nat) :
    List ResourceAvailability × List String × List String :=
  match db rid with
  | none => ([⟨toString rid, "not_found", none⟩], [s!"Mask list {rid} not found"], [])
  | some resource =>
    if !resource.is_uploaded then
      ([⟨toString rid, "unavailable", some resource.file_name⟩], [],
       [s!"Mask list \x27{resource.file_name}\x27 is not yet uploaded"])
    else
      ([⟨toString rid, "available", some resource.file_name⟩], [], [])

/-- `validate_attack_config` endpoint from
`app/api/v1/endpoints/control/attacks.py`.  The mutable `errors`, `warnings`
and `resource_availability` lists become the in-order concatenation of the
campaign check and the three resource blocks; `valid` is `len(errors) == 0`.
`db` is the resource table and `access` the campaign-access oracle. -/
def validate_attack_config (db : Nat → Option AttackResourceFileRow)
    (access : Nat → CampaignAccess) (data : AttackCreateData) :
    AttackValidationResponse :=
  let campaignErrors : List String :=
    match data.campaign_id with
    | none => ["campaign_id is required"]
    | some cid =>
      match access cid with
      | .ok => []
      | .notFound => [s!"Campaign {cid} not found"]
      | .denied => [s!"No access to campaign {cid}"]
  let wl := match data.word_list_id with
    | none => ([], [], [])
    | some i => checkWordList db i
  let rl := match data.rule_list_id with
    | none => ([], [], [])
    | some i => checkRuleList db i
  let ml := match data.mask_list_id with
    | none => ([], [], [])
    | some i => checkMaskList db i
  let errors := campaignErrors ++ wl.2.1 ++ rl.2.1 ++ ml.2.1
  { valid := errors.isEmpty
    errors := errors
    warnings := wl.2.2 ++ rl.2.2 ++ ml.2.2
    resource_availability := wl.1 ++ rl.1 ++ ml.1 }

/-- C5: in `POST /attacks/validate`, each present checked resource reference
(`word_list_id`, `rule_list_id`, `mask_list_id`) is classified: missing
resource yields an appended error and a `not_found` availability entry, a
present but not-uploaded resource yields an appended warning and an
`unavailable` entry, and otherwise an `available` entry; and `valid` is true
exactly when the error list is empty. -/
theorem validate_attack_config_classification :
    ∀ (db : Nat → Option AttackResourceFileRow) (access : Nat → CampaignAccess)
      (data : AttackCreateData),
      ((validate_attack_config db access data).valid = true ↔
        (validate_attack_config db access data).errors = []) ∧
      (∀ i, data.word_list_id = some i →
        (db i = none →
          (⟨toString i, "not_found", none⟩ : ResourceAvailability) ∈
            (validate_attack_config db access data).resource_availability ∧
          s!"Wordlist {i} not found" ∈ (validate_attack_config db access data).errors) ∧
        (∀ res, db i = some res → res.is_uploaded = false →
          (⟨toString i, "unavailable", some res.file_name⟩ : ResourceAvailability) ∈
            (validate_attack_config db access data).resource_availability ∧
          s!"Wordlist \x27{res.file_name}\x27 is not yet uploaded" ∈
            (validate_attack_config db access data).warnings) ∧
        (∀ res, db i = some res → res.is_uploaded = true →
          (⟨toString i, "available", some res.file_name⟩ : ResourceAvailability) ∈
            (validate_attack_config db access data).resource_availability)) ∧
      (∀ i, data.rule_list_id = some i →
        (db i = none →
          (⟨toString i, "not_found", none⟩ : ResourceAvailability) ∈
            (validate_attack_config db access data).resource_availability ∧
          s!"Rule list {i} not found" ∈ (validate_attack_config db access data).errors) ∧
        (∀ res, db i = some res → res.is_uploaded = false →
          (⟨toString i, "unavailable", some res.file_name⟩ : ResourceAvailability) ∈
            (validate_attack_config db access data).resource_availability ∧
          s!"Rule list \x27{res.file_name}\x27 is not yet uploaded" ∈
            (validate_attack_config db access data).warnings) ∧
        (∀ res, db i = some res → res.is_uploaded = true →
          (⟨toString i, "available", some res.file_name⟩ : ResourceAvailability) ∈
            (validate_attack_config db access data).resource_availability)) ∧
      (∀ i, data.mask_list_id = some i →
        (db i = none →
          (⟨toString i, "not_found", none⟩ : ResourceAvailability) ∈
            (validate_attack_config db access data).resource_availability ∧
          s!"Mask list {i} not found" ∈ (validate_attack_config db access data).errors) ∧
        (∀ res, db i = some res → res.is_uploaded = false →
          (⟨toString i, "unavailable", some res.file_name⟩ : ResourceAvailability) ∈
            (validate_attack_config db access data).resource_availability ∧
          s!"Mask list \x27{res.file_name}\x27 is not yet uploaded" ∈
            (validate_attack_config db access data).warnings) ∧
        (∀ res, db i = some res → res.is_uploaded = true →
          (⟨toString i, "available", some res.file_name⟩ : ResourceAvailability) ∈
            (validate_attack_config db access data).resource_availability)) := by
  intro db access data
  refine ⟨?_, ?_, ?_, ?_⟩
  · simp [validate_attack_config, List.isEmpty_iff]
  · intro i hw
    refine ⟨?_, ?_, ?_⟩
    · intro hdb
      constructor <;>
        simp [validate_attack_config, hw, hdb, checkWordList, List.mem_append]
    · intro res hdb hup
      constructor <;>
        simp [validate_attack_config, hw, hdb, hup, checkWordList, List.mem_append]
    · intro res hdb hup
      simp [validate_attack_config, hw, hdb, hup, checkWordList, List.mem_append]
  · intro i hr
    refine ⟨?_, ?_, ?_⟩
    · intro hdb
      constructor <;>
        simp [validate_attack_config, hr, hdb, checkRuleList, List.mem_append]
    · intro res hdb hup
      constructor <;>
        simp [validate_attack_config, hr, hdb, hup, checkRuleList, List.mem_append]
    · intro res hdb hup
      simp [validate_attack_config, hr, hdb, hup, checkRuleList, List.mem_append]
  · intro i hm
    refine ⟨?_, ?_, ?_⟩
    · intro hdb
      constructor <;>
        simp [validate_attack_config, hm, hdb, checkMaskList, List.mem_append]
    · intro res hdb hup
      constructor <;>
        simp [validate_attack_config, hm, hdb, hup, checkMaskList, List.mem_append]
    · intro res hdb hup
      simp [validate_attack_config, hm, hdb, hup, checkMaskList, List.mem_append]

/-- Concrete resource table for the C5 witness: only resource 7 exists and it
is not yet uploaded. -/
def demoResourceDb : Nat → Option AttackResourceFileRow :=
  fun i => if i = 7 then some ⟨"rockyou.txt", false⟩ else none

/-- Concrete campaign-access oracle for the C5 witness. -/
def demoCampaignAccess : Nat → CampaignAccess := fun _ => .ok

/-- Concrete request body for the C5 witness: wordlist 7 (present, pending
upload) and rule list 42 (missing). -/
def demoAttackCreate : AttackCreateData := ⟨some 1, some 7, some 42, none⟩

/-- Witness for C5: the pending wordlist is classified `unavailable` with a
warning, and the missing rule list contributes an appended error. -/
theorem validate_attack_config_classification_witness :
    ((⟨toString 7, "unavailable", some "rockyou.txt"⟩ : ResourceAvailability) ∈
      (validate_attack_config demoResourceDb demoCampaignAccess
        demoAttackCreate).resource_availability) ∧
    s!"Rule list {42} not found" ∈
      (validate_attack_config demoResourceDb demoCampaignAccess demoAttackCreate).errors :=
  ⟨(((validate_attack_config_classification demoResourceDb demoCampaignAccess
        demoAttackCreate).2.1 7 rfl).2.1 ⟨"rockyou.txt", false⟩ (by decide) rfl).1,
   (((validate_attack_config_classification demoResourceDb demoCampaignAccess
        demoAttackCreate).2.2.1 42 rfl).1 (by decide)).2⟩
